import Mathlib

/-!
Verification development for the operator implementation selection and
dispatch engine of the clDNN / intel_gpu plugin (format algebra, kernel
selection dispatch, per-operator parameter builders).

Each definition is a shallow embedding of the corresponding C++ entity
named in its doc comment.  Machine integers are modelled as Nat / Int
with explicit reduction modulo 2^32 where the C++ code converts to a
32-bit unsigned value.  Fallible code is modelled with Except.
-/

namespace CldnnSpec

/-- The subset of the cldnn format enumeration (non_max_suppression.cpp,
struct format, enum type) that the verified operations mention: the plain
data formats, and the grouped and non-grouped weight formats selected by
get_default_format. -/
inductive format where
  | bfyx
  | bfzyx
  | bfwzyx
  | yxfb
  | byxf
  | fyxb
  | oiyx
  | oizyx
  | goiyx
  | goizyx
  deriving DecidableEq, Repr

/-- Embedding of format getDefaultFormat (non_max_suppression.cpp lines
393-417): default_fmt starts as bfyx and is overwritten by the matching
branch; is_grouped is consulted only when is_weights is true. -/
def get_default_format (rank : Nat) (is_weights is_grouped : Bool) : format :=
  if is_weights then
    if is_grouped then
      if rank = 5 then format.goiyx
      else if rank = 6 then format.goizyx
      else format.bfyx
    else
      if rank = 4 then format.oiyx
      else if rank = 5 then format.oizyx
      else format.bfyx
  else
    if rank = 5 then format.bfzyx
    else if rank = 6 then format.bfwzyx
    else format.bfyx

/-- The documented (rank, is_weights, is_grouped) table of
get_default_format, as enumerated in the spec. -/
def documented_default_format (rank : Nat) (is_weights is_grouped : Bool) : Prop :=
  (is_weights = false ∧ is_grouped = false ∧ (rank = 4 ∨ rank = 5 ∨ rank = 6)) ∨
  (is_weights = true ∧ is_grouped = true ∧ (rank = 5 ∨ rank = 6)) ∨
  (is_weights = true ∧ is_grouped = false ∧ (rank = 4 ∨ rank = 5))

instance (rank : Nat) (w g : Bool) : Decidable (documented_default_format rank w g) := by
  unfold documented_default_format
  infer_instance

/-- C5: get_default_format returns bfyx for (4,false,false), bfzyx for
(5,false,false), bfwzyx for (6,false,false), goiyx for (5,true,true),
goizyx for (6,true,true), and oiyx / oizyx for ranks 4 / 5 with
weights=true, grouped=false. -/
theorem get_default_format_documented_table :
    get_default_format 4 false false = format.bfyx ∧
    get_default_format 5 false false = format.bfzyx ∧
    get_default_format 6 false false = format.bfwzyx ∧
    get_default_format 5 true true = format.goiyx ∧
    get_default_format 6 true true = format.goizyx ∧
    get_default_format 4 true false = format.oiyx ∧
    get_default_format 5 true false = format.oizyx := by
  decide

/-- C10 counterexample: (rank=5, is_weights=false, is_grouped=true) is
outside the documented table, yet get_default_format returns bfzyx, not
the claimed bfyx fallback: the is_grouped flag is ignored whenever
is_weights is false. -/
theorem get_default_format_fallback_counterexample :
    ¬ documented_default_format 5 false true ∧
    get_default_format 5 false true = format.bfzyx ∧
    get_default_format 5 false true ≠ format.bfyx := by
  decide

/-- C10 amended: outside the documented table get_default_format never
fails; is_grouped is ignored when is_weights is false, so the
undocumented combinations (5,false,true) and (6,false,true) still yield
bfzyx and bfwzyx; every other undocumented combination (rank 7 data,
rank 4 grouped weights, rank 3 of any kind, ...) falls back to bfyx. -/
theorem get_default_format_fallback :
    ∀ (rank : Nat) (w g : Bool), ¬ documented_default_format rank w g →
      ((w = false ∧ rank = 5) → get_default_format rank w g = format.bfzyx) ∧
      ((w = false ∧ rank = 6) → get_default_format rank w g = format.bfwzyx) ∧
      (¬ (w = false ∧ (rank = 5 ∨ rank = 6)) → get_default_format rank w g = format.bfyx) := by
  intro rank w g hnd
  unfold documented_default_format at hnd
  refine ⟨?_, ?_, ?_⟩ <;> intro h <;>
    cases w <;> cases g <;> simp_all [get_default_format]

/-- Witness for the C10 amended theorem at the concrete undocumented
input (rank=7, is_weights=false, is_grouped=false). -/
theorem get_default_format_fallback_witness :
    ¬ documented_default_format 7 false false ∧
    get_default_format 7 false false = format.bfyx :=
  ⟨by decide,
   (get_default_format_fallback 7 false false (by decide)).2.2 (by decide)⟩

/-- Embedding of struct format_traits (non_max_suppression.cpp lines
115-150), restricted to the fields the verified operations read: the
canonical external dimension order and the physical internal order,
both as character lists. -/
structure format_traits where
  order : List Char
  internal_order : List Char
  deriving DecidableEq, Repr

/-- Embedding of std::string find_first_of for a single search
character: index of the first occurrence of c in s, none if absent
(std::string::npos). -/
def find_first_of (s : List Char) (c : Char) : Option Nat :=
  match s with
  | [] => none
  | a :: rest => if a = c then some 0 else (find_first_of rest c).map (· + 1)

/-- Embedding of format internal_to_external (non_max_suppression.cpp
lines 455-461): look up the character internal_order[idx] in order;
std::invalid_argument (modelled as none) when absent, otherwise the
find_first_of position. -/
def internal_to_external (t : format_traits) (idx : Nat) : Option Nat :=
  match t.internal_order.get? idx with
  | none => none
  | some c => find_first_of t.order c

/-- dimension() = length of the canonical order string
(non_max_suppression.cpp line 357). -/
def dimension (t : format_traits) : Nat :=
  t.order.length

/-- Modelled from the spec: the static format_traits table (the
definition of format traits behind the declared accessor at
non_max_suppression.cpp line 341) is not among the sources; entries
are modelled from the spec, section 3: order is the role-character
string of the format name, coarsest to finest, and internal_order is a
permutation of order (the physical storage order reorders canonical
order only by permutation). -/
def traits : format → format_traits
  | format.bfyx => { order := ['b', 'f', 'y', 'x'], internal_order := ['b', 'f', 'x', 'y'] }
  | format.bfzyx => { order := ['b', 'f', 'z', 'y', 'x'], internal_order := ['b', 'f', 'x', 'y', 'z'] }
  | format.bfwzyx => { order := ['b', 'f', 'w', 'z', 'y', 'x'], internal_order := ['b', 'f', 'x', 'y', 'z', 'w'] }
  | format.yxfb => { order := ['y', 'x', 'f', 'b'], internal_order := ['b', 'f', 'x', 'y'] }
  | format.byxf => { order := ['b', 'y', 'x', 'f'], internal_order := ['b', 'f', 'x', 'y'] }
  | format.fyxb => { order := ['f', 'y', 'x', 'b'], internal_order := ['b', 'f', 'x', 'y'] }
  | format.oiyx => { order := ['o', 'i', 'y', 'x'], internal_order := ['o', 'i', 'x', 'y'] }
  | format.oizyx => { order := ['o', 'i', 'z', 'y', 'x'], internal_order := ['o', 'i', 'x', 'y', 'z'] }
  | format.goiyx => { order := ['g', 'o', 'i', 'y', 'x'], internal_order := ['g', 'o', 'i', 'x', 'y'] }
  | format.goizyx => { order := ['g', 'o', 'i', 'z', 'y', 'x'], internal_order := ['g', 'o', 'i', 'x', 'y', 'z'] }

/-- The map sending each valid physical index of t to its
internal_to_external image hits every canonical index of t exactly once
and never fails: the list of images over all physical indices is a
permutation of the full canonical range (under the some constructor,
so totality is part of the property). -/
def permutation_property (t : format_traits) : Prop :=
  List.Perm
    ((List.range t.internal_order.length).map (fun i => internal_to_external t i))
    ((List.range (dimension t)).map some)

instance (t : format_traits) : Decidable (permutation_property t) := by
  unfold permutation_property
  exact List.decidablePerm _ _

/-- C6: for every format in the (spec-modelled) static table, the map
from valid physical indices through internal_to_external is a
permutation of the canonical index range: injective, total, and
covering all of the dimension of the format. -/
theorem internal_to_external_permutation :
    ∀ f : format, permutation_property (traits f) := by
  intro f
  cases f <;> decide

/-- find_first_of returns none exactly when the character is absent. -/
theorem find_first_of_eq_none_iff (s : List Char) (c : Char) :
    find_first_of s c = none ↔ c ∉ s := by
  induction s with
  | nil => simp [find_first_of]
  | cons a rest ih =>
    by_cases hac : a = c
    · simp [find_first_of, hac]
    · simp only [find_first_of, if_neg hac, Option.map_eq_none']
      rw [ih, List.mem_cons]
      constructor
      · intro hn hor
        rcases hor with hor | hor
        · exact hac hor.symm
        · exact hn hor
      · intro hn hmem
        exact hn (Or.inr hmem)

/-- Any index returned by find_first_of is the first occurrence of the
character in the list. -/
theorem find_first_of_eq_some (s : List Char) (c : Char) (j : Nat)
    (h : find_first_of s c = some j) :
    ∃ hj : j < s.length, s.get ⟨j, hj⟩ = c ∧
      ∀ k (hk : k < j), s.get ⟨k, Nat.lt_trans hk hj⟩ ≠ c := by
  induction s generalizing j with
  | nil => simp [find_first_of] at h
  | cons a rest ih =>
    simp only [find_first_of] at h
    by_cases hac : a = c
    · rw [if_pos hac] at h
      simp only [Option.some.injEq] at h
      subst h
      exact ⟨Nat.succ_pos _, hac, fun k hk => absurd hk (Nat.not_lt_zero k)⟩
    · rw [if_neg hac] at h
      cases hr : find_first_of rest c with
      | none => rw [hr] at h; simp at h
      | some j0 =>
        rw [hr] at h
        simp only [Option.map_some', Option.some.injEq] at h
        subst h
        obtain ⟨hj0, hget, hmin⟩ := ih j0 hr
        refine ⟨Nat.succ_lt_succ hj0, ?_, ?_⟩
        · simpa using hget
        · intro k hk
          cases k with
          | zero => simpa using hac
          | succ k0 =>
            have hk0 : k0 < j0 := Nat.lt_of_succ_lt_succ hk
            simpa using hmin k0 hk0

/-- C7: for a valid physical index, internal_to_external fails exactly
when the character internal_order[idx] does not occur in order, and any
returned index is the position of the first occurrence of that
character in order. -/
theorem internal_to_external_first_occurrence :
    ∀ (t : format_traits) (idx : Nat) (h : idx < t.internal_order.length),
      (internal_to_external t idx = none ↔
        t.internal_order.get ⟨idx, h⟩ ∉ t.order) ∧
      (∀ j, internal_to_external t idx = some j →
        ∃ hj : j < t.order.length,
          t.order.get ⟨j, hj⟩ = t.internal_order.get ⟨idx, h⟩ ∧
          ∀ k (hk : k < j), t.order.get ⟨k, Nat.lt_trans hk hj⟩ ≠ t.internal_order.get ⟨idx, h⟩) := by
  intro t idx h
  have hget : t.internal_order.get? idx = some (t.internal_order.get ⟨idx, h⟩) :=
    List.get?_eq_get h
  constructor
  · rw [internal_to_external, hget]
    exact find_first_of_eq_none_iff _ _
  · intro j hj
    rw [internal_to_external, hget] at hj
    obtain ⟨hjlt, hfst, hmin⟩ := find_first_of_eq_some _ _ _ hj
    exact ⟨hjlt, hfst, hmin⟩

/-- Witness for C7 at a concrete traits entry and physical index: for
the bfyx entry of the modelled table, physical index 0 is valid and the
lookup does not fail. -/
theorem internal_to_external_first_occurrence_witness :
    0 < (traits format.bfyx).internal_order.length ∧
    internal_to_external (traits format.bfyx) 0 ≠ none :=
  ⟨by decide,
   fun hn =>
     ((internal_to_external_first_occurrence (traits format.bfyx) 0 (by decide)).1.mp hn)
       (by decide)⟩

/-- The concat_axis enumeration of the kernel selector
(part_003 lines 33-41). -/
inductive concat_axis where
  | BATCH
  | FEATURE
  | X
  | Y
  | Z
  | W
  deriving DecidableEq, Repr

/-- The value stored into the 32-bit unsigned local cldnn_axis at
part_003 line 20: the int64 ternary result, reduced modulo 2^32 by the
conversion to unsigned. -/
def normalized_axis (axis : Int) (rank : Nat) : Nat :=
  ((if axis ≥ 0 then axis else axis + (rank : Int)) % (2 ^ 32 : Int)).toNat

/-- Embedding of convert_axis (part_003 lines 19-44).  The spatial
arithmetic never underflows in the reachable branch (cldnn_axis < rank
and cldnn_axis >= 2 give spatial_axis < spatial_size), so Nat
subtraction agrees with the C++ unsigned arithmetic; the assignment
back into the 32-bit cldnn_axis keeps its modulo 2^32 reduction. -/
def convert_axis (axis : Int) (rank : Nat) : Except String concat_axis :=
  let cldnn_axis := normalized_axis axis rank
  if rank ≤ cldnn_axis then
    Except.error "Concatenation axis exceeds number of dimensions"
  else
    let ca : Nat :=
      if 2 ≤ cldnn_axis then
        let spatial_axis := cldnn_axis - 2
        let spatial_size := max rank 4 - 2
        (spatial_size - spatial_axis - 1 + 2) % 2 ^ 32
      else cldnn_axis
    match ca with
    | 0 => Except.ok concat_axis.BATCH
    | 1 => Except.ok concat_axis.FEATURE
    | 2 => Except.ok concat_axis.X
    | 3 => Except.ok concat_axis.Y
    | 4 => Except.ok concat_axis.Z
    | 5 => Except.ok concat_axis.W
    | _ => Except.error "Unsupported concatenation axis"

/-- The switch cases 2-5 of convert_axis as a function of the remapped
physical axis value; values outside 2-5 are unreachable where this
function is used. -/
def spatial_axis_of : Nat → concat_axis
  | 2 => concat_axis.X
  | 3 => concat_axis.Y
  | 4 => concat_axis.Z
  | 5 => concat_axis.W
  | _ => concat_axis.BATCH

/-- C3 counterexample: the axis is truncated to 32 bits, so the
non-negative axis 2^32 with rank 4 has normalized value 2^32 >= 4 and
should fail per the claim, yet convert_axis wraps it to 0 and returns
BATCH. -/
theorem convert_axis_counterexample :
    ((2 : Int) ^ 32 ≥ 0) ∧ ((4 : Int) ≤ 2 ^ 32) ∧
    convert_axis (2 ^ 32) 4 = Except.ok concat_axis.BATCH := by
  refine ⟨by norm_num, by norm_num, ?_⟩
  rfl

/-- C3 amended: the conversion operates on the normalized axis reduced
modulo 2^32 (a negative axis a becomes (a + r) mod 2^32, a non-negative
one a mod 2^32).  It fails with the axis-exceeds-dimensions error
exactly on the branch where that truncated value is >= r; truncated
value 0 maps to BATCH and 1 to FEATURE; spatial axes are reversed after
batch/feature, and for a rank-4 node logical axis -1 maps to X. -/
theorem convert_axis_amended (axis : Int) (rank : Nat) :
    (rank ≤ normalized_axis axis rank →
      convert_axis axis rank =
        Except.error "Concatenation axis exceeds number of dimensions") ∧
    (normalized_axis axis rank = 0 → 0 < rank →
      convert_axis axis rank = Except.ok concat_axis.BATCH) ∧
    (normalized_axis axis rank = 1 → 1 < rank →
      convert_axis axis rank = Except.ok concat_axis.FEATURE) ∧
    (2 ≤ normalized_axis axis rank → normalized_axis axis rank < rank → rank ≤ 6 →
      convert_axis axis rank =
        Except.ok (spatial_axis_of (max rank 4 + 1 - normalized_axis axis rank))) ∧
    (axis = -1 → rank = 4 → convert_axis axis rank = Except.ok concat_axis.X) := by
  refine ⟨?_, ?_, ?_, ?_, ?_⟩
  · intro hge
    rw [convert_axis]
    simp only [if_pos hge]
  · intro h0 hr
    rw [convert_axis, h0]
    have : ¬ rank ≤ 0 := by omega
    simp only [if_neg this]
    norm_num
  · intro h1 hr
    rw [convert_axis, h1]
    have : ¬ rank ≤ 1 := by omega
    simp only [if_neg this]
    norm_num
  · intro h2 hlt hr6
    have key : ∀ n, normalized_axis axis rank = n → 2 ≤ n → n < rank → rank ≤ 6 →
        convert_axis axis rank = Except.ok (spatial_axis_of (max rank 4 + 1 - n)) := by
      intro n hn hn2 hnr hr
      rw [convert_axis, hn]
      have hnle : ¬ rank ≤ n := by omega
      simp only [if_neg hnle, if_pos hn2]
      have hrank3 : 3 ≤ rank := by omega
      have hn5 : n ≤ 5 := by omega
      interval_cases rank <;> interval_cases n <;> rfl
    exact key _ rfl h2 hlt hr6
  · intro ha hr
    subst ha
    subst hr
    rfl

/-- Witness for the C3 amended theorem: rank-4 logical axis -1 maps to
X, and axis 5 with rank 4 fails (normalized value 5 >= 4). -/
theorem convert_axis_amended_witness :
    convert_axis (-1) 4 = Except.ok concat_axis.X ∧
    convert_axis 5 4 =
      Except.error "Concatenation axis exceeds number of dimensions" :=
  ⟨(convert_axis_amended (-1) 4).2.2.2.2 rfl rfl,
   (convert_axis_amended 5 4).1 (by decide)⟩

/-- Kernel data returned by the kernel selector: the list of low-level
kernels it bundles (kernel bodies are opaque, represented by ids).
Mirrors kernel_selector kernel_data as far as the dispatch code reads
it (kd.kernels.size() at part_003 line 64). -/
structure kernel_data where
  kernels : List Nat
  deriving DecidableEq, Repr

/-- The fatal errors raised during implementation creation:
CLDNN_ERROR_BOOL on an empty candidate list, CLDNN_ERROR_NOT_EQUAL on
the concatenation kernel-count check, and IE_THROW from convert_axis. -/
inductive create_error where
  | no_viable_kernel (node_id : String) (msg : String)
  | count_mismatch (node_id : String) (msg : String)
  | unsupported_axis (msg : String)
  deriving DecidableEq, Repr

/-- Compiled implementation for quantize (part_002): the inherited
constructor stores the chosen kernel data. -/
structure quantize_impl where
  kd : kernel_data
  deriving DecidableEq, Repr

/-- Embedding of quantize_impl::create (part_002 lines 46-94),
parameterized by the candidate list the external kernel selector
returned for the built parameter record (GetBestKernels is an opaque
external collaborator): an empty list hits CLDNN_ERROR_BOOL with the
node id and the no-proper-kernel message, otherwise the implementation
is built from best_kernels[0]. -/
def quantize_create (node_id : String) (best_kernels : List kernel_data) :
    Except create_error quantize_impl :=
  match best_kernels with
  | [] => Except.error (create_error.no_viable_kernel node_id
      "Cannot find a proper kernel with this arguments")
  | kd :: _ => Except.ok { kd := kd }

/-- The fields of a concatenation node read by concatenation_impl
creation (part_003): node id, the can_be_optimized flag, the input
count, the concatenation axis attribute and the output rank. -/
structure concatenation_node where
  id : String
  can_be_optimized : Bool
  inputs_count : Nat
  axis : Int
  output_rank : Nat
  deriving DecidableEq, Repr

/-- Compiled implementation for concatenation (part_003): the kernel
data plus the per-instance _can_be_optimized flag captured from the
node by set_node_params. -/
structure concatenation_impl where
  kd : kernel_data
  can_be_optimized : Bool
  deriving DecidableEq, Repr

/-- Embedding of the concatenation_impl constructor (part_003 lines
58-69): unless the node can be optimized out, CLDNN_ERROR_NOT_EQUAL
fails when the input count differs from the kernel count of the chosen
kernel data; set_node_params then caches can_be_optimized. -/
def concatenation_impl_ctor (arg : concatenation_node) (kd : kernel_data) :
    Except create_error concatenation_impl :=
  if arg.can_be_optimized = false then
    if arg.inputs_count ≠ kd.kernels.length then
      Except.error (create_error.count_mismatch arg.id
        "Error - not enough kernels for concatenation")
    else
      Except.ok { kd := kd, can_be_optimized := arg.can_be_optimized }
  else
    Except.ok { kd := kd, can_be_optimized := arg.can_be_optimized }

/-- Embedding of concatenation_impl::create (part_003 lines 83-111),
parameterized by the candidate list the external kernel selector
returns: an optimized-out node returns immediately with empty kernel
data (the selector result is never consulted); otherwise the parameter
record is built (convert_axis may fail first), an empty candidate list
hits CLDNN_ERROR_BOOL, and the implementation is built from
best_kernels[0]. -/
def concatenation_create (arg : concatenation_node)
    (best_kernels : List kernel_data) : Except create_error concatenation_impl :=
  if arg.can_be_optimized then
    concatenation_impl_ctor arg { kernels := [] }
  else
    match convert_axis arg.axis arg.output_rank with
    | Except.error msg => Except.error (create_error.unsupported_axis msg)
    | Except.ok _ =>
      match best_kernels with
      | [] => Except.error (create_error.no_viable_kernel arg.id
          "Cannot find a proper kernel with this arguments")
      | kd :: _ => concatenation_impl_ctor arg kd

/-- C1: an empty candidate list from the kernel selector makes create
fail fatally with the node identifier and the no-proper-kernel message,
returning no implementation; a non-empty list yields an implementation
built from candidate 0 (for concatenation: whenever creation reached
the selector, i.e. the node is not optimized out and the axis
converted). -/
theorem create_no_viable_kernel (nid : String) (best : List kernel_data)
    (arg : concatenation_node) :
    (best = [] → quantize_create nid best =
      Except.error (create_error.no_viable_kernel nid
        "Cannot find a proper kernel with this arguments")) ∧
    (∀ kd rest, best = kd :: rest →
      quantize_create nid best = Except.ok { kd := kd }) ∧
    (arg.can_be_optimized = false →
      (∃ ax, convert_axis arg.axis arg.output_rank = Except.ok ax) →
      best = [] →
      concatenation_create arg best =
        Except.error (create_error.no_viable_kernel arg.id
          "Cannot find a proper kernel with this arguments")) ∧
    (∀ impl, concatenation_create arg best = Except.ok impl →
      arg.can_be_optimized = false → ∃ rest, best = impl.kd :: rest) := by
  refine ⟨?_, ?_, ?_, ?_⟩
  · intro hb
    subst hb
    rfl
  · intro kd rest hb
    subst hb
    rfl
  · intro hopt ⟨ax, hax⟩ hb
    subst hb
    unfold concatenation_create
    simp only [hopt, if_neg Bool.false_ne_true, hax]
  · intro impl hok hopt
    unfold concatenation_create at hok
    rw [hopt] at hok
    simp only [if_neg Bool.false_ne_true] at hok
    split at hok
    · simp at hok
    · split at hok
      · simp at hok
      · next kd tail =>
        unfold concatenation_impl_ctor at hok
        rw [if_pos hopt] at hok
        by_cases hc : arg.inputs_count ≠ kd.kernels.length
        · rw [if_pos hc] at hok
          simp at hok
        · rw [if_neg hc] at hok
          cases hok
          exact ⟨tail, rfl⟩

/-- Witness for C1 at concrete inputs: an empty selector result makes
both quantize and (non-optimized, valid-axis) concatenation creation
fail with the no-viable-kernel error carrying the node id. -/
theorem create_no_viable_kernel_witness :
    quantize_create "q0" [] =
      Except.error (create_error.no_viable_kernel "q0"
        "Cannot find a proper kernel with this arguments") ∧
    concatenation_create
        { id := "c0", can_be_optimized := false, inputs_count := 2,
          axis := 1, output_rank := 4 } [] =
      Except.error (create_error.no_viable_kernel "c0"
        "Cannot find a proper kernel with this arguments") :=
  ⟨(create_no_viable_kernel "q0" []
      { id := "c0", can_be_optimized := false, inputs_count := 2,
        axis := 1, output_rank := 4 }).1 rfl,
   (create_no_viable_kernel "c0" []
      { id := "c0", can_be_optimized := false, inputs_count := 2,
        axis := 1, output_rank := 4 }).2.2.1 rfl
      ⟨concat_axis.FEATURE, by rfl⟩ rfl⟩

/-- C9: an optimized-out concatenation node is created immediately with
empty kernel data, identically for every possible selector result (the
selector is never invoked) and irrespective of the input count (the
kernel-count check of the constructor is skipped). -/
theorem concatenation_create_optimized_bypass (arg : concatenation_node)
    (best other : List kernel_data) :
    arg.can_be_optimized = true →
    concatenation_create arg best =
      Except.ok { kd := { kernels := [] }, can_be_optimized := true } ∧
    concatenation_create arg best = concatenation_create arg other := by
  intro hopt
  have h1 : ∀ (l : List kernel_data),
      concatenation_create arg l = concatenation_impl_ctor arg { kernels := [] } := by
    intro l
    unfold concatenation_create
    rw [hopt]
    simp
  have h2 : concatenation_impl_ctor arg { kernels := [] } =
      Except.ok { kd := { kernels := [] }, can_be_optimized := true } := by
    unfold concatenation_impl_ctor
    rw [hopt]
    simp
  exact ⟨(h1 best).trans h2, (h1 best).trans ((h1 other).symm)⟩

/-- Witness for C9 at a concrete node whose input count (5) differs
from the empty kernel count: creation still succeeds with empty kernel
data, for a non-empty selector result as well as for an empty one. -/
theorem concatenation_create_optimized_bypass_witness :
    concatenation_create
        { id := "c1", can_be_optimized := true, inputs_count := 5,
          axis := 99, output_rank := 4 } [{ kernels := [7] }] =
      Except.ok { kd := { kernels := [] }, can_be_optimized := true } ∧
    concatenation_create
        { id := "c1", can_be_optimized := true, inputs_count := 5,
          axis := 99, output_rank := 4 } [{ kernels := [7] }] =
      concatenation_create
        { id := "c1", can_be_optimized := true, inputs_count := 5,
          axis := 99, output_rank := 4 } [] :=
  concatenation_create_optimized_bypass
    { id := "c1", can_be_optimized := true, inputs_count := 5,
      axis := 99, output_rank := 4 } [{ kernels := [7] }] [] rfl

/-- group_num of a format: count of group role characters in the
canonical order of its traits entry (format_traits counts of matching
characters, spec section 3; group characters are the string g,
non_max_suppression.cpp line 141). -/
def group_num (f : format) : Nat :=
  ((traits f).order.filter (fun c => c = 'g')).length

/-- format is_grouped (non_max_suppression.cpp line 420): group_num
is non-zero. -/
def format_is_grouped (f : format) : Bool :=
  group_num f ≠ 0

/-- The slice of a cldnn layout read by the convolution descriptor
builder (part_001): its format, its first two spatial extents and its
rank. -/
structure layout where
  fmt : format
  spatial0 : Nat
  spatial1 : Nat
  rank : Nat
  deriving DecidableEq, Repr

/-- Embedding of the grouped-weights canonicalization step of
get_convolution_primitive_descriptor (part_001 lines 24-32):
grouped_weights is format is_grouped of the weight format or the
primitive grouped_weights_shape flag; when it holds and the input rank
equals the weight rank, the two leading spatial extents are swapped if
spatial[0] == 1 and spatial[1] != 1, and the weight format is in any
case reassigned to get_default_format(rank + 1, true, true). -/
def canonicalize_grouped_weights (grouped_weights_shape : Bool)
    (input_rank : Nat) (wl : layout) : layout :=
  let grouped_weights := format_is_grouped wl.fmt || grouped_weights_shape
  if grouped_weights && (input_rank == wl.rank) then
    let wl1 :=
      if wl.spatial0 == 1 && wl.spatial1 != 1 then
        { wl with spatial0 := wl.spatial1, spatial1 := wl.spatial0 }
      else wl
    { wl1 with fmt := get_default_format (wl1.rank + 1) true true }
  else wl

/-- C4 counterexample: a grouped rank-5 weight layout (goiyx) whose
rank equals the input rank but whose leading spatial extents (2, 3) do
not match the degenerate 1-by-N pattern is still re-canonicalized to
get_default_format(6, true, true) = goizyx, while the claim predicts it
keeps its format. -/
theorem canonicalize_grouped_weights_counterexample :
    (canonicalize_grouped_weights false 5
        { fmt := format.goiyx, spatial0 := 2, spatial1 := 3, rank := 5 }).fmt
      = format.goizyx ∧
    format.goizyx ≠ format.goiyx ∧
    ¬ ((2 : Nat) = 1 ∧ (3 : Nat) ≠ 1) := by
  refine ⟨rfl, by decide, by decide⟩

/-- C4 amended: a grouped weight layout is re-canonicalized to
get_default_format(rank + 1, true, true) exactly when the weight rank
equals the input rank; within that case the two leading spatial extents
are swapped exactly when spatial[0] == 1 and spatial[1] != 1 (the
degenerate pattern only gates the swap, not the format reassignment);
grouped weights whose rank differs from the input keep their format and
extents, as do non-grouped weights. -/
theorem canonicalize_grouped_weights_amended (gs : Bool) (ir : Nat) (wl : layout) :
    ((format_is_grouped wl.fmt || gs) = true → ir = wl.rank →
      (canonicalize_grouped_weights gs ir wl).fmt =
        get_default_format (wl.rank + 1) true true ∧
      (canonicalize_grouped_weights gs ir wl).rank = wl.rank ∧
      ((wl.spatial0 = 1 ∧ wl.spatial1 ≠ 1) →
        (canonicalize_grouped_weights gs ir wl).spatial0 = wl.spatial1 ∧
        (canonicalize_grouped_weights gs ir wl).spatial1 = wl.spatial0) ∧
      (¬ (wl.spatial0 = 1 ∧ wl.spatial1 ≠ 1) →
        (canonicalize_grouped_weights gs ir wl).spatial0 = wl.spatial0 ∧
        (canonicalize_grouped_weights gs ir wl).spatial1 = wl.spatial1)) ∧
    ((format_is_grouped wl.fmt || gs) = false ∨ ir ≠ wl.rank →
      canonicalize_grouped_weights gs ir wl = wl) := by
  constructor
  · intro hg hr
    unfold canonicalize_grouped_weights
    rw [hg]
    have hbe : (ir == wl.rank) = true := beq_iff_eq.mpr hr
    rw [hbe]
    simp only [Bool.true_and, if_pos rfl]
    by_cases hsp : wl.spatial0 = 1 ∧ wl.spatial1 ≠ 1
    · have hb : (wl.spatial0 == 1 && wl.spatial1 != 1) = true := by
        rcases hsp with ⟨h0, h1⟩
        simp [h0, bne_iff_ne, h1]
      rw [hb]
      simp only [if_pos rfl]
      exact ⟨rfl, rfl, fun _ => ⟨rfl, rfl⟩, fun hn => absurd hsp hn⟩
    · have hb : (wl.spatial0 == 1 && wl.spatial1 != 1) = false := by
        rcases Decidable.not_and_iff_or_not.mp hsp with h | h
        · simp [beq_iff_eq, h]
        · have : wl.spatial1 = 1 := Decidable.not_not.mp h
          simp [this]
      rw [hb]
      simp only [if_neg Bool.false_ne_true]
      exact ⟨rfl, rfl, fun hc => absurd hc hsp, fun _ => ⟨rfl, rfl⟩⟩
  · intro hne
    unfold canonicalize_grouped_weights
    rcases hne with hg | hr
    · rw [hg]
      simp
    · have hbe : (ir == wl.rank) = false := by
        simp [beq_iff_eq, hr]
      rw [hbe]
      simp

/-- Witness for the C4 amended theorem at concrete inputs: the grouped
rank-equal layout with non-degenerate spatials is re-canonicalized with
extents kept, and a grouped layout whose rank differs from the input
is returned unchanged. -/
theorem canonicalize_grouped_weights_amended_witness :
    (canonicalize_grouped_weights false 5
        { fmt := format.goiyx, spatial0 := 2, spatial1 := 3, rank := 5 }).fmt
      = get_default_format 6 true true ∧
    canonicalize_grouped_weights false 4
        { fmt := format.goiyx, spatial0 := 2, spatial1 := 3, rank := 5 } =
      { fmt := format.goiyx, spatial0 := 2, spatial1 := 3, rank := 5 } :=
  ⟨((canonicalize_grouped_weights_amended false 5
      { fmt := format.goiyx, spatial0 := 2, spatial1 := 3, rank := 5 }).1
      (by decide) rfl).1,
   (canonicalize_grouped_weights_amended false 4
      { fmt := format.goiyx, spatial0 := 2, spatial1 := 3, rank := 5 }).2
      (Or.inr (by decide))⟩

/-- Box encoding selected from the center_point_box attribute
(register.hpp lines 132-133). -/
inductive box_encoding_type where
  | CENTER
  | CORNER
  deriving DecidableEq, Repr

/-- The fields of a non-max-suppression node read by parameter
building (register.hpp): node id, the output layout of each optional
input node (layouts are opaque, represented by ids), the six optional
capability flags, and the two attributes. -/
structure nms_node where
  id : String
  scores_layout : Nat
  num_select_per_class_layout : Nat
  iou_threshold_layout : Nat
  score_threshold_layout : Nat
  soft_nms_sigma_layout : Nat
  second_output_layout : Nat
  third_output_layout : Nat
  has_num_select_per_class : Bool
  has_iou_threshold : Bool
  has_score_threshold : Bool
  has_soft_nms_sigma : Bool
  has_second_output : Bool
  has_third_output : Bool
  sort_result_descending : Bool
  center_point_box : Bool
  deriving DecidableEq, Repr

/-- The non_max_suppression_params record as read and written by
create (register.hpp lines 93-133): the tensor input list and the six
optional-input presence flags, plus the two attribute fields.  All
flags start false (kernel-selector parameter defaults). -/
structure nms_params where
  inputs : List Nat
  has_num_select_per_class : Bool
  has_iou_threshold : Bool
  has_score_threshold : Bool
  has_soft_nms_sigma : Bool
  has_second_output : Bool
  has_third_output : Bool
  sort_result_descending : Bool
  box_encoding : box_encoding_type
  deriving DecidableEq, Repr

/-- Embedding of the parameter-building part of
non_max_suppression_gpu::create (register.hpp lines 93-133),
parameterized by the inputs already present from get_default_params.
The scores tensor is always appended; each optional input is appended
together with its flag under its guard.  Note the guard of the third
optional output at line 126: the C++ code tests has_second_output
there, not has_third_output (translated as-is). -/
def nms_build_params (node : nms_node) (base_inputs : List Nat) : nms_params :=
  let p0 : nms_params :=
    { inputs := base_inputs ++ [node.scores_layout],
      has_num_select_per_class := false, has_iou_threshold := false,
      has_score_threshold := false, has_soft_nms_sigma := false,
      has_second_output := false, has_third_output := false,
      sort_result_descending := false, box_encoding := box_encoding_type.CORNER }
  let p1 := if node.has_num_select_per_class then
      { p0 with
        inputs := p0.inputs ++ [node.num_select_per_class_layout]
        has_num_select_per_class := true }
    else p0
  let p2 := if node.has_iou_threshold then
      { p1 with
        inputs := p1.inputs ++ [node.iou_threshold_layout]
        has_iou_threshold := true }
    else p1
  let p3 := if node.has_score_threshold then
      { p2 with
        inputs := p2.inputs ++ [node.score_threshold_layout]
        has_score_threshold := true }
    else p2
  let p4 := if node.has_soft_nms_sigma then
      { p3 with
        inputs := p3.inputs ++ [node.soft_nms_sigma_layout]
        has_soft_nms_sigma := true }
    else p3
  let p5 := if node.has_second_output then
      { p4 with
        inputs := p4.inputs ++ [node.second_output_layout]
        has_second_output := true }
    else p4
  let p6 := if node.has_second_output then
      { p5 with
        inputs := p5.inputs ++ [node.third_output_layout]
        has_third_output := true }
    else p5
  { p6 with
    sort_result_descending := node.sort_result_descending
    box_encoding := if node.center_point_box then box_encoding_type.CENTER
      else box_encoding_type.CORNER }

/-- A node reporting a second auxiliary output but no third one; all
other capability flags false.  Layout ids: scores 1, second output 6,
third output 7. -/
def nms_node_second_only : nms_node :=
  { id := "nms0", scores_layout := 1, num_select_per_class_layout := 2,
    iou_threshold_layout := 3, score_threshold_layout := 4,
    soft_nms_sigma_layout := 5, second_output_layout := 6,
    third_output_layout := 7,
    has_num_select_per_class := false, has_iou_threshold := false,
    has_score_threshold := false, has_soft_nms_sigma := false,
    has_second_output := true, has_third_output := false,
    sort_result_descending := false, center_point_box := false }

/-- A node reporting a third auxiliary output but no second one; all
other capability flags false. -/
def nms_node_third_only : nms_node :=
  { nms_node_second_only with
    id := "nms1"
    has_second_output := false
    has_third_output := true }

/-- C2: evaluation at the failing inputs.  With has_second_output true
and has_third_output false, the built record nevertheless appends the
third-output tensor (id 7) and sets has_third_output, because the
guard at register.hpp line 126 tests has_second_output; conversely,
with has_third_output true and has_second_output false, neither the
tensor nor the flag appears.  Both directions violate the per-flag
lock-step the claim states. -/
theorem nms_third_output_guard_bug :
    nms_node_second_only.has_third_output = false ∧
    (nms_build_params nms_node_second_only [0]).has_third_output = true ∧
    (nms_build_params nms_node_second_only [0]).inputs = [0, 1, 6, 7] ∧
    nms_node_third_only.has_third_output = true ∧
    (nms_build_params nms_node_third_only [0]).has_third_output = false ∧
    (nms_build_params nms_node_third_only [0]).inputs = [0, 1] := by
  refine ⟨rfl, rfl, rfl, rfl, rfl, rfl⟩

/-- Compiled implementation for activation (activation.cpp): the
kernel data plus the per-instance _is_parameterized flag captured from
the node by set_node_params. -/
structure activation_impl where
  kd : kernel_data
  is_parameterized : Bool
  deriving DecidableEq, Repr

/-- Default element used only to make store reads total; theorems only
read indices inside the store. -/
def default_concatenation_impl : concatenation_impl :=
  { kd := { kernels := [] }, can_be_optimized := false }

/-- Default element used only to make store reads total. -/
def default_activation_impl : activation_impl :=
  { kd := { kernels := [] }, is_parameterized := false }

/-!
Object identity model for clone: live implementation objects form a
store (allocation-ordered list); an object is its index.  The copy
constructor behind clone (part_003 lines 51-56, activation.cpp lines
20-25) allocates a new object whose fields are copied by value from
the source, and set_node_params mutates the flag of one object only.
-/

/-- clone() of concatenation_impl: allocate a copy of object i at the
end of the store, returning the new store and the new object. -/
def concatenation_impl_clone (s : List concatenation_impl) (i : Nat) :
    List concatenation_impl × Nat :=
  (s ++ [s.getD i default_concatenation_impl], s.length)

/-- set_node_params of concatenation_impl (part_003 lines 71-75):
overwrite the _can_be_optimized flag of object i with the flag the
node reports. -/
def concatenation_set_flag (s : List concatenation_impl) (i : Nat) (b : Bool) :
    List concatenation_impl :=
  s.set i { s.getD i default_concatenation_impl with can_be_optimized := b }

/-- Read the _can_be_optimized flag of object i. -/
def concatenation_get_flag (s : List concatenation_impl) (i : Nat) : Bool :=
  (s.getD i default_concatenation_impl).can_be_optimized

/-- clone() of activation_impl: allocate a copy of object i at the end
of the store, returning the new store and the new object. -/
def activation_impl_clone (s : List activation_impl) (i : Nat) :
    List activation_impl × Nat :=
  (s ++ [s.getD i default_activation_impl], s.length)

/-- set_node_params of activation_impl (activation.cpp lines 31-35):
overwrite the _is_parameterized flag of object i. -/
def activation_set_flag (s : List activation_impl) (i : Nat) (b : Bool) :
    List activation_impl :=
  s.set i { s.getD i default_activation_impl with is_parameterized := b }

/-- Read the _is_parameterized flag of object i. -/
def activation_get_flag (s : List activation_impl) (i : Nat) : Bool :=
  (s.getD i default_activation_impl).is_parameterized

/-- Reading the freshly appended slot of a store returns the appended
object. -/
theorem store_getD_concat_self {α : Type} (l : List α) (x d : α) :
    (l ++ [x]).getD l.length d = x := by
  rw [List.getD_append_right _ _ _ _ (Nat.le_refl _)]
  simp

/-- Overwriting slot i and reading slot i returns the new object. -/
theorem store_getD_set_self {α : Type} (l : List α) (i : Nat)
    (h : i < l.length) (a d : α) : (l.set i a).getD i d = a := by
  have h2 : i < (l.set i a).length := by simpa using h
  rw [List.getD_eq_getElem _ _ h2]
  simp [List.getElem_set]

/-- Overwriting slot i leaves every other slot unchanged. -/
theorem store_getD_set_ne {α : Type} (l : List α) (i j : Nat)
    (h : i ≠ j) (a d : α) : (l.set i a).getD j d = l.getD j d := by
  rw [List.getD_eq_getD_get?, List.getD_eq_getD_get?]
  rw [List.get?_eq_getElem?, List.get?_eq_getElem?, List.getElem?_set_ne h]

/-- C8: cloning a concatenation or activation implementation copies
the per-instance flag by value: the copy carries the flag value of the
original at copy time, overwriting the flag of the copy changes the
copy but leaves the flag of the original untouched, and overwriting
the flag of the original leaves the flag of the copy untouched. -/
theorem clone_copies_state_by_value
    (s : List concatenation_impl) (i : Nat) (b : Bool)
    (t : List activation_impl) (j : Nat) (c : Bool)
    (hi : i < s.length) (hj : j < t.length) :
    (concatenation_get_flag (concatenation_impl_clone s i).1
        (concatenation_impl_clone s i).2 = concatenation_get_flag s i ∧
      concatenation_get_flag
        (concatenation_set_flag (concatenation_impl_clone s i).1
          (concatenation_impl_clone s i).2 b)
        (concatenation_impl_clone s i).2 = b ∧
      concatenation_get_flag
        (concatenation_set_flag (concatenation_impl_clone s i).1
          (concatenation_impl_clone s i).2 b) i = concatenation_get_flag s i ∧
      concatenation_get_flag
        (concatenation_set_flag (concatenation_impl_clone s i).1 i b)
        (concatenation_impl_clone s i).2 = concatenation_get_flag s i) ∧
    (activation_get_flag (activation_impl_clone t j).1
        (activation_impl_clone t j).2 = activation_get_flag t j ∧
      activation_get_flag
        (activation_set_flag (activation_impl_clone t j).1
          (activation_impl_clone t j).2 c)
        (activation_impl_clone t j).2 = c ∧
      activation_get_flag
        (activation_set_flag (activation_impl_clone t j).1
          (activation_impl_clone t j).2 c) j = activation_get_flag t j ∧
      activation_get_flag
        (activation_set_flag (activation_impl_clone t j).1 j c)
        (activation_impl_clone t j).2 = activation_get_flag t j) := by
  refine ⟨⟨?_, ?_, ?_, ?_⟩, ?_, ?_, ?_, ?_⟩
  · simp only [concatenation_get_flag, concatenation_impl_clone]
    rw [store_getD_concat_self]
  · simp only [concatenation_get_flag, concatenation_set_flag, concatenation_impl_clone]
    rw [store_getD_set_self _ _ (by simp)]
  · simp only [concatenation_get_flag, concatenation_set_flag, concatenation_impl_clone]
    rw [store_getD_set_ne _ _ _ (Ne.symm (Nat.ne_of_lt hi)),
      List.getD_append _ _ _ _ hi]
  · simp only [concatenation_get_flag, concatenation_set_flag, concatenation_impl_clone]
    rw [store_getD_set_ne _ _ _ (Nat.ne_of_lt hi), store_getD_concat_self]
  · simp only [activation_get_flag, activation_impl_clone]
    rw [store_getD_concat_self]
  · simp only [activation_get_flag, activation_set_flag, activation_impl_clone]
    rw [store_getD_set_self _ _ (by simp)]
  · simp only [activation_get_flag, activation_set_flag, activation_impl_clone]
    rw [store_getD_set_ne _ _ _ (Ne.symm (Nat.ne_of_lt hj)),
      List.getD_append _ _ _ _ hj]
  · simp only [activation_get_flag, activation_set_flag, activation_impl_clone]
    rw [store_getD_set_ne _ _ _ (Nat.ne_of_lt hj), store_getD_concat_self]

/-- Witness for C8 at a one-object store holding flag true: after
cloning and overwriting the flag of the copy with false, the original
object still reads true. -/
theorem clone_copies_state_by_value_witness :
    concatenation_get_flag
      (concatenation_set_flag
        (concatenation_impl_clone
          [{ kd := { kernels := [] }, can_be_optimized := true }] 0).1
        (concatenation_impl_clone
          [{ kd := { kernels := [] }, can_be_optimized := true }] 0).2 false) 0
      = concatenation_get_flag
          [{ kd := { kernels := [] }, can_be_optimized := true }] 0 ∧
    activation_get_flag
      (activation_set_flag
        (activation_impl_clone
          [{ kd := { kernels := [] }, is_parameterized := true }] 0).1
        (activation_impl_clone
          [{ kd := { kernels := [] }, is_parameterized := true }] 0).2 false) 0
      = activation_get_flag
          [{ kd := { kernels := [] }, is_parameterized := true }] 0 :=
  ⟨(clone_copies_state_by_value
      [{ kd := { kernels := [] }, can_be_optimized := true }] 0 false
      [{ kd := { kernels := [] }, is_parameterized := true }] 0 false
      (by decide) (by decide)).1.2.2.1,
   (clone_copies_state_by_value
      [{ kd := { kernels := [] }, can_be_optimized := true }] 0 false
      [{ kd := { kernels := [] }, is_parameterized := true }] 0 false
      (by decide) (by decide)).2.2.2.1⟩

end CldnnSpec
